/-
Verification of the ET4397IN intrusion-prevention system against its
natural-language specification.

The Go sources are shallowly embedded: byte slices become `List Nat`
(each element < 256 where it matters), machine integers become `Nat`/`Int`
with explicit wrap-around where overflow matters, Go maps become
association lists, and fallible code returns an explicit result type in
which `panic` records an out-of-bounds slice access (a Go runtime panic)
and `fmtErr` records a returned `error` value.  Functions whose Go bodies
can fail to terminate (the DNS name decoder, whose compression pointers
can loop) are indexed by fuel: a result of `none` means the computation
did not finish within the given number of steps, and a result of `none`
for every fuel amount means the Go code diverges.
-/
import Mathlib

set_option linter.unusedVariables false

/-! ## Common result type for the embedded decoders -/

/-- Result of running an embedded Go decoder: a successful value, a returned
`error` with its message, or a runtime panic from an out-of-bounds slice
access. -/
inductive DecodeResult (α : Type) where
  | ok (val : α)
  | fmtErr (msg : String)
  | panic
deriving Repr, DecidableEq

/-- Big-endian 16-bit read `binary.BigEndian.Uint16(data[i:i+2])`; callers
ensure the two bytes are in bounds before this is evaluated. -/
def beU16 (data : List Nat) (i : Nat) : Nat :=
  data.getD i 0 * 256 + data.getD (i + 1) 0

/-- The Go slice expression `data[i:j]` (for in-bounds `i ≤ j ≤ len(data)`). -/
def goSlice (data : List Nat) (i j : Nat) : List Nat :=
  (data.drop i).take (j - i)

/-! ## DNS domain-name decoding (dns/dns.go, `decodeDomainName`)

The Go function:

    func decodeDomainName(data []byte, offset int) (string, int, error) {
        if offset >= len(data) {
            return "", 0, errors.New("Offset too large")
        }
        index := offset
        var buffer bytes.Buffer
        for data[index] != 0x00 {
            if data[index]&0xc0 == 0xc0 {
                if index+2 > len(data) {
                    return "", 0, errors.New("Name pointer incomplete")
                }
                nOffset := int(binary.BigEndian.Uint16(data[index:index+2])) & 0x3fff
                name, _, err := decodeDomainName(data, nOffset)
                if err != nil { return "", 0, err }
                return name, index + 2, nil
            } else {
                length := index + int(data[index]) + 1
                if length-index > 63 || length > len(data) {
                    return "", 0, errors.New("Label length too long")
                }
                buffer.Write(data[index+1 : length])
                buffer.WriteString(".")
                index = length
            }
        }
        name := buffer.String()
        if last := len(name) - 1; last >= 0 && name[last] == '.' {
            name = name[:last]
        }
        return name, index + 1, nil
    }

The embedding carries the accumulated buffer as a byte list (46 is '.').
The loop-head read `data[index]` panics when `index = len(data)`, which the
embedding makes explicit.  The recursive call on a compression pointer is
inlined: its entry check `nOffset >= len(data)` is performed at the call
site and the loop is entered directly, which is the same computation. -/

/-- Strip one trailing '.' (byte 46), as the Go epilogue does on the
accumulated buffer. -/
def stripTrailingDot (name : List Nat) : List Nat :=
  if name ≠ [] ∧ name.getLast? = some 46 then name.dropLast else name

/-- The decoding loop of `decodeDomainName`, fuel-indexed.  `none` means the
computation did not finish within `fuel` steps (each loop iteration and each
followed compression pointer consumes one unit). -/
def dnLoop (data : List Nat) : Nat → Nat → List Nat → Option (DecodeResult (List Nat × Nat))
  | 0, _, _ => none
  | fuel + 1, index, acc =>
    match data.get? index with
    | none => some .panic
    | some b =>
      if b = 0 then
        some (.ok (stripTrailingDot acc, index + 1))
      else if b &&& 0xc0 = 0xc0 then
        if data.length < index + 2 then
          some (.fmtErr "Name pointer incomplete")
        else
          -- recursive call `decodeDomainName(data, nOffset)`, inlined
          let nOffset := beU16 data index &&& 0x3fff
          if data.length ≤ nOffset then
            some (.fmtErr "Offset too large")
          else
            match dnLoop data fuel nOffset [] with
            | none => none
            | some (.ok (name, _)) => some (.ok (name, index + 2))
            | some (.fmtErr e) => some (.fmtErr e)
            | some .panic => some .panic
      else
        if 63 < b + 1 ∨ data.length < index + b + 1 then
          some (.fmtErr "Label length too long")
        else
          dnLoop data fuel (index + b + 1) (acc ++ goSlice data (index + 1) (index + b + 1) ++ [46])

/-- `decodeDomainName(data, offset)`: entry bounds check, then the loop. -/
def decodeDomainName (data : List Nat) (fuel : Nat) (offset : Nat) :
    Option (DecodeResult (List Nat × Nat)) :=
  if data.length ≤ offset then some (.fmtErr "Offset too large")
  else dnLoop data fuel offset []

example : decodeDomainName [1, 97, 0] 10 0 = some (.ok ([97], 3)) := by decide
example : decodeDomainName [3, 97, 98, 99, 0] 10 0 = some (.ok ([97, 98, 99], 5)) := by decide
example : decodeDomainName [0] 10 0 = some (.ok ([], 1)) := by decide
example : decodeDomainName [0] 10 5 = some (.fmtErr "Offset too large") := by decide
-- label runs exactly to the end with no terminating zero: loop head reads data[2]
example : decodeDomainName [1, 65] 10 0 = some .panic := by decide

/-! ## DNS question decoding (dns/dns.go, `DNSQuestion.decode`)

    func (q *DNSQuestion) decode(data []byte, offset int) (int, error) {
        name, offset, err := decodeDomainName(data, offset)
        if err != nil { return 0, err }
        q.QName = name
        q.QType = DNSType(binary.BigEndian.Uint16(data[offset : offset+2]))
        q.QClass = DNSClass(binary.BigEndian.Uint16(data[offset+2 : offset+4]))
        return offset + 4, nil
    }

The two 16-bit reads after the name are unguarded: the slice expression
`data[offset:offset+2]` panics when `offset+2 > len(data)`, and
`data[offset+2:offset+4]` panics when `offset+4 > len(data)`. -/

/-- A decoded DNS question.  `qcls` embeds the source field `QClass`. -/
structure DNSQuestion where
  qname : List Nat
  qtype : Nat
  qcls : Nat
deriving Repr, DecidableEq

/-- `DNSQuestion.decode(data, offset)`, fuel-indexed through the name
decoder. -/
def DNSQuestion.decode (data : List Nat) (fuel : Nat) (offset : Nat) :
    Option (DecodeResult (DNSQuestion × Nat)) :=
  match decodeDomainName data fuel offset with
  | none => none
  | some (.fmtErr e) => some (.fmtErr e)
  | some .panic => some .panic
  | some (.ok (name, off)) =>
    if data.length < off + 2 then some .panic
    else if data.length < off + 4 then some .panic
    else some (.ok (⟨name, beU16 data off, beU16 data (off + 2)⟩, off + 4))

example : DNSQuestion.decode [1, 97, 0, 0, 1, 0, 1] 10 0 =
    some (.ok (⟨[97], 1, 1⟩, 7)) := by decide

/-! ## Claims C2, C5, C10: the DNS name decoder -/

/-- A 14-byte message whose name at offset 12 is the self-referential
compression pointer `c0 0c` (scenario S2 of the spec). -/
def selfPtrData : List Nat :=
  [0, 0, 0, 0, 0, 0, 0, 0, 0, 0, 0, 0, 0xc0, 0x0c]

/-- C2 counter-evaluation core: on the self-pointer input the decoder never
returns, whatever the fuel. -/
theorem dnLoop_selfPtr_none : ∀ fuel, dnLoop selfPtrData fuel 12 [] = none := by
  intro fuel
  induction fuel with
  | zero => rfl
  | succ f ih =>
    show dnLoop selfPtrData (f + 1) 12 [] = none
    rw [dnLoop]
    simp only [selfPtrData, beU16] at ih ⊢
    norm_num [List.get?]
    rw [show (49164 &&& 16383 : Nat) = 12 from by decide]
    norm_num [ih]

/-- C2: the claim says DNS name decoding terminates on every input, and that a
pointer to a target offset ≥ the input length yields the "Offset too large"
format error while a pointer loop yields an error rather than unbounded
recursion.  The out-of-range half is true (first conjunct), but a
self-referential pointer whose target is in bounds recurses without bound:
on `selfPtrData` (14 bytes, `c0 0c` at offset 12) the decoder fails to
produce any outcome no matter how much fuel it is given (second conjunct),
so the code does not terminate on every input. -/
theorem dns_decode_pointer_claim :
    (∀ (data : List Nat) (fuel offset : Nat), data.length ≤ offset →
      decodeDomainName data fuel offset = some (.fmtErr "Offset too large")) ∧
    (∀ fuel, decodeDomainName selfPtrData fuel 12 = none) := by
  constructor
  · intro data fuel offset h
    simp [decodeDomainName, h]
  · intro fuel
    have h12 : ¬ (selfPtrData.length ≤ 12) := by decide
    simp only [decodeDomainName, if_neg h12]
    exact dnLoop_selfPtr_none fuel

/-- Witness for C2: both conjuncts applied at concrete inputs. -/
theorem dns_decode_pointer_claim_witness :
    decodeDomainName [0] 7 3 = some (.fmtErr "Offset too large") ∧
    decodeDomainName selfPtrData 1000 12 = none :=
  ⟨dns_decode_pointer_claim.1 [0] 7 3 (by decide),
   dns_decode_pointer_claim.2 1000⟩

/-- A name consisting of a single label of length exactly 63 whose bytes all
lie inside the input, followed by the terminating zero octet. -/
def label63Data : List Nat := 63 :: (List.replicate 63 97 ++ [0])

/-- C5: the claim says a label whose length octet `L` satisfies `L ≤ 63` and
whose bytes are in bounds is always accepted.  The decoder's guard is
`length-index > 63` with `length-index = L+1`, so `L = 63` is rejected even
though the code's own comment cites the RFC 1035 bound "63 octets or less":
every in-bounds label of length exactly 63 draws the "Label length too long"
error (first conjunct), in particular on `label63Data` (second conjunct). -/
theorem dns_label63_rejected :
    (∀ (data : List Nat) (index : Nat) (acc : List Nat) (fuel : Nat),
      data.get? index = some 63 → index + 64 ≤ data.length →
      dnLoop data (fuel + 1) index acc = some (.fmtErr "Label length too long")) ∧
    ((label63Data.getD 0 0 ≤ 63 ∧ 0 + 1 + label63Data.getD 0 0 ≤ label63Data.length) ∧
      decodeDomainName label63Data 2 0 = some (.fmtErr "Label length too long")) := by
  refine ⟨fun data index acc fuel hidx hlen => ?_, by decide⟩
  rw [dnLoop, hidx]
  norm_num
  intro h
  exact absurd h (by decide)

/-- Witness for C5: the general conjunct applied to `label63Data` itself. -/
theorem dns_label63_rejected_witness :
    dnLoop label63Data 1 0 [] = some (.fmtErr "Label length too long") :=
  dns_label63_rejected.1 label63Data 0 [] 0 (by decide) (by decide)

/-- C10: out-of-bounds reads in the DNS decoder.  A name whose labels extend
exactly to the end of the input without a terminating zero octet makes
`decodeDomainName` read `data[len(data)]` (here `[1, 65]`: one label of
length 1 consuming the rest of the input), and a question whose encoded name
is followed by fewer than four bytes makes `DNSQuestion.decode` slice past
the end of the input (here `[0, 0, 1]`: the root name at offset 0 followed
by only two bytes, so `data[1+2:1+4]` is out of range). -/
theorem dns_oob_reads :
    decodeDomainName [1, 65] 10 0 = some .panic ∧
    DNSQuestion.decode [0, 0, 1] 10 0 = some .panic := by
  decide


/-! ## Publish/subscribe hub (hub/hub.go)

    func (h *Hub) Publish(topic string, args ...interface{}) bool {
        subs := h.subscriptions[topic]
        for _, sub := range subs {
            if ok := sub.handler(args); !ok {
                return false
            }
        }
        return true
    }

    func (h *Hub) Subscribe(s Subscriber) {
        sub := subscription{s.Topics(), s.Receive}
        for _, topic := range sub.topics {
            h.subscriptions[topic] = append(h.subscriptions[topic], sub)
        }
    }

Handlers are embedded as functions `α → Bool` over an abstract argument
type `α` (the Go `[]interface{}`).  The map from topics to subscription
lists is an association list; a missing topic looks up to the empty list,
as a Go map read of a missing key yields the zero value. -/

/-- The hub: a table from topics to the handlers registered under them, in
registration order. -/
structure Hub (α : Type) where
  subscriptions : List (String × List (α → Bool))

/-- `h.subscriptions[topic]`: the handler list of the topic, `[]` if the
topic has no entry. -/
def lookupSubs {α : Type} (h : Hub α) (topic : String) : List (α → Bool) :=
  (((h.subscriptions.find? fun p => p.1 = topic).map fun p => p.2).getD [])

/-- The loop of `Publish` over the topic's handler list: stop with `false`
at the first vetoing handler, `true` if none vetoes. -/
def publishList {α : Type} (hs : List (α → Bool)) (args : α) : Bool :=
  match hs with
  | [] => true
  | f :: fs => if f args then publishList fs args else false

/-- `Hub.Publish(topic, args)`. -/
def Hub.Publish {α : Type} (h : Hub α) (topic : String) (args : α) : Bool :=
  publishList (lookupSubs h topic) args

/-- The handlers the `Publish` loop actually invokes, in invocation order:
the loop body runs `sub.handler(args)` for each handler until (and
including) the first one that returns false. -/
def invokedHandlers {α : Type} (hs : List (α → Bool)) (args : α) : List (α → Bool) :=
  match hs with
  | [] => []
  | f :: fs => if f args then f :: invokedHandlers fs args else [f]

/-- A subscriber: declared topics plus the `Receive` handler. -/
structure Subscriber (α : Type) where
  topics : List String
  receive : α → Bool

/-- `h.subscriptions[topic] = append(h.subscriptions[topic], sub)` on the
association-list table: append to the topic's entry, or create it. -/
def appendSub {α : Type} (subs : List (String × List (α → Bool))) (topic : String)
    (f : α → Bool) : List (String × List (α → Bool)) :=
  match subs with
  | [] => [(topic, [f])]
  | (t, fs) :: rest =>
    if t = topic then (t, fs ++ [f]) :: rest else (t, fs) :: appendSub rest topic f

/-- `Hub.Subscribe(s)`: register the subscriber's handler under each of its
declared topics. -/
def Hub.Subscribe {α : Type} (h : Hub α) (s : Subscriber α) : Hub α :=
  ⟨s.topics.foldl (fun acc t => appendSub acc t s.receive) h.subscriptions⟩

/-- `NewHub()`. -/
def NewHub (α : Type) : Hub α := ⟨[]⟩

example : (NewHub Nat).Publish "packet" 0 = true := by decide

theorem publishList_eq_all {α : Type} (hs : List (α → Bool)) (args : α) :
    publishList hs args = hs.all fun f => f args := by
  induction hs with
  | nil => rfl
  | cons f fs ih =>
    simp only [publishList, List.all_cons]
    cases hf : f args <;> simp [ih]

theorem invokedHandlers_spec {α : Type} (hs : List (α → Bool)) (args : α) :
    invokedHandlers hs args =
      (hs.takeWhile fun f => f args) ++ (hs.dropWhile fun f => f args).take 1 := by
  induction hs with
  | nil => rfl
  | cons f fs ih =>
    simp only [invokedHandlers, List.takeWhile_cons, List.dropWhile_cons]
    cases hf : f args <;> simp [ih]

theorem publishList_iff_invoked {α : Type} (hs : List (α → Bool)) (args : α) :
    publishList hs args = true ↔ ∀ f ∈ invokedHandlers hs args, f args = true := by
  induction hs with
  | nil => simp [publishList, invokedHandlers]
  | cons f fs ih =>
    simp only [publishList, invokedHandlers]
    cases hf : f args <;> simp [hf, ih]

/-- C1: `Hub.Publish` dispatches the handlers registered under the topic in
registration order and reduces their verdicts with a short-circuit AND.
Conjuncts: (1) the verdict is true iff every handler registered under the
topic returns true on the arguments; (2) the handlers actually invoked are
exactly the longest all-true front of the registration list followed by the
first vetoing handler if there is one — so invocation follows registration
order and no handler after the first `false` is invoked; (3) the verdict is
true iff every *invoked* handler returned true; (4) with no subscriber
registered under the topic the verdict is true; (5) `Subscribe` appends the
new handler at the end of a topic's list, so list order is registration
order. -/
theorem hub_publish_veto :
    (∀ (α : Type) (h : Hub α) (topic : String) (args : α),
      h.Publish topic args = true ↔ ∀ f ∈ lookupSubs h topic, f args = true) ∧
    (∀ (α : Type) (h : Hub α) (topic : String) (args : α),
      invokedHandlers (lookupSubs h topic) args =
        ((lookupSubs h topic).takeWhile fun f => f args) ++
          ((lookupSubs h topic).dropWhile fun f => f args).take 1) ∧
    (∀ (α : Type) (h : Hub α) (topic : String) (args : α),
      h.Publish topic args = true ↔
        ∀ f ∈ invokedHandlers (lookupSubs h topic) args, f args = true) ∧
    (∀ (α : Type) (h : Hub α) (topic : String) (args : α),
      lookupSubs h topic = [] → h.Publish topic args = true) ∧
    (∀ (α : Type) (subs : List (String × List (α → Bool))) (topic : String) (f : α → Bool),
      lookupSubs ⟨appendSub subs topic f⟩ topic = lookupSubs ⟨subs⟩ topic ++ [f]) := by
  refine ⟨?_, ?_, ?_, ?_, ?_⟩
  · intro α h topic args
    simp [Hub.Publish, publishList_eq_all, List.all_eq_true]
  · intro α h topic args
    exact invokedHandlers_spec _ _
  · intro α h topic args
    exact publishList_iff_invoked _ _
  · intro α h topic args hnone
    simp [Hub.Publish, hnone, publishList]
  · intro α subs topic f
    induction subs with
    | nil => simp [appendSub, lookupSubs]
    | cons p rest ih =>
      obtain ⟨t, fs⟩ := p
      by_cases ht : t = topic
      · subst ht
        simp [appendSub, lookupSubs]
      · simp only [appendSub, if_neg ht]
        simpa [lookupSubs, List.find?, ht] using ih

/-- Witness for C1: the empty hub lets a message pass (conjunct 4 at a
concrete topic), and registering a handler appends it (conjunct 5 at a
concrete table). -/
theorem hub_publish_veto_witness :
    (NewHub Nat).Publish "packet" 0 = true ∧
    lookupSubs (⟨appendSub [] "packet" fun _ => true⟩ : Hub Nat) "packet" =
      lookupSubs (⟨[]⟩ : Hub Nat) "packet" ++ [fun _ => true] :=
  ⟨hub_publish_veto.2.2.2.1 Nat (NewHub Nat) "packet" 0 rfl,
   hub_publish_veto.2.2.2.2 Nat [] "packet" fun _ => true⟩

/-! ## DoS module (module/dosmodule.go)

Per TCP frame (under the module mutex):

    if tcp.SYN && !tcp.ACK {
        m.syns = m.syns + 1
        if !m.cons[string(ip.SrcIP)] && m.syns > m.threshold {
            if rand.Intn(100) == 1 { return true }
            m.sendReset(ip, tcp)
            return false
        }
    } else if tcp.ACK && !tcp.SYN {
        m.cons[string(ip.SrcIP)] = true
    }
    return true

Frames without an IPv4 or a TCP layer are passed through untouched.  The
random draw is an oracle argument `rnd` (the value of `rand.Intn(100)`),
the `cons` map is an association list whose missing keys read as `false`
(a Go map's zero value), and the `int32` counter wraps explicitly.  The
state also carries the reset packet emitted by `sendReset`, so that RST
emission is observable. -/

/-- The fields of `layers.IPv4` the module touches. -/
structure IPv4Header where
  srcIP : List Nat
  dstIP : List Nat
deriving Repr, DecidableEq

/-- The fields of `layers.TCP` the module touches.  `ackNum` embeds the Go
field `Ack` (the acknowledgement number); `ack` is the ACK flag. -/
structure TCPHeader where
  srcPort : Nat
  dstPort : Nat
  seq : Nat
  ackNum : Nat
  syn : Bool
  ack : Bool
  rst : Bool
  window : Nat
deriving Repr, DecidableEq

/-- Two's-complement wrap-around of Go's `int32`. -/
def i32wrap (x : Int) : Int := (x + 2 ^ 31) % 2 ^ 32 - 2 ^ 31

/-- The DoS module state: the established-connections map, the SYN counter
and the configured threshold. -/
structure DoSState where
  cons : List (List Nat × Bool)
  syns : Int
  threshold : Int
deriving Repr, DecidableEq

/-- `m.cons[string(ip.SrcIP)]`: map read with zero value `false`. -/
def consLookup (st : DoSState) (src : List Nat) : Bool :=
  (((st.cons.find? fun p => p.1 = src).map fun p => p.2).getD false)

/-- `DoSModule.sendReset(ip, tcp)`: the RST packet it hands to `send`,
built from the original frame.  The IP source and destination are swapped
in place; the TCP layer is a fresh struct whose unset Go fields are zero
values. -/
def DoSModule.sendReset (ip : IPv4Header) (tcp : TCPHeader) : IPv4Header × TCPHeader :=
  (⟨ip.dstIP, ip.srcIP⟩,
   { srcPort := tcp.srcPort
     dstPort := tcp.dstPort
     seq := (tcp.seq + 1) % 2 ^ 32
     ackNum := tcp.ackNum
     syn := false
     ack := false
     rst := true
     window := tcp.window })

/-- `DoSModule.Receive` on one frame: returns the new state, the verdict,
and the RST packet emitted on rejection (if any).  `none` as the frame
stands for a packet without an IPv4 or a TCP layer. -/
def DoSModule.receive (st : DoSState) (frame : Option (IPv4Header × TCPHeader)) (rnd : Nat) :
    DoSState × Bool × Option (IPv4Header × TCPHeader) :=
  match frame with
  | none => (st, true, none)
  | some (ip, tcp) =>
    if tcp.syn && !tcp.ack then
      let st1 : DoSState := { st with syns := i32wrap (st.syns + 1) }
      if !consLookup st1 ip.srcIP && decide (st1.threshold < st1.syns) then
        if rnd = 1 then (st1, true, none)
        else (st1, false, some (DoSModule.sendReset ip tcp))
      else (st1, true, none)
    else if tcp.ack && !tcp.syn then
      ({ st with cons := (ip.srcIP, true) :: st.cons }, true, none)
    else (st, true, none)

/-- Fold `Receive` over a list of frames paired with their random draws,
keeping only the state. -/
def DoSModule.processFrames (st : DoSState)
    (fs : List (Option (IPv4Header × TCPHeader) × Nat)) : DoSState :=
  fs.foldl (fun s f => (DoSModule.receive s f.1 f.2).1) st

theorem consLookup_receive_mono (st : DoSState) (frame : Option (IPv4Header × TCPHeader))
    (rnd : Nat) (src : List Nat) (h : consLookup st src = true) :
    consLookup (DoSModule.receive st frame rnd).1 src = true := by
  match frame with
  | none => exact h
  | some (ip, tcp) =>
    simp only [DoSModule.receive]
    split
    · split
      · split <;> exact h
      · exact h
    · split
      · by_cases hsrc : ip.srcIP = src
        · subst hsrc; simp [consLookup]
        · simpa [consLookup, List.find?, hsrc] using h
      · exact h

theorem consLookup_processFrames_mono (fs : List (Option (IPv4Header × TCPHeader) × Nat))
    (st : DoSState) (src : List Nat) (h : consLookup st src = true) :
    consLookup (DoSModule.processFrames st fs) src = true := by
  induction fs generalizing st with
  | nil => exact h
  | cons f rest ih =>
    exact ih _ (consLookup_receive_mono st f.1 f.2 src h)

theorem consLookup_after_ack (st : DoSState) (ip : IPv4Header) (tcp : TCPHeader) (rnd : Nat)
    (hack : tcp.ack = true) (hsyn : tcp.syn = false) :
    consLookup (DoSModule.receive st (some (ip, tcp)) rnd).1 ip.srcIP = true := by
  simp [DoSModule.receive, hack, hsyn, consLookup]

theorem receive_established_syn (st : DoSState) (ip : IPv4Header) (tcp : TCPHeader) (rnd : Nat)
    (hest : consLookup st ip.srcIP = true) (hsyn : tcp.syn = true) (hack : tcp.ack = false) :
    (DoSModule.receive st (some (ip, tcp)) rnd).2.1 = true ∧
    (DoSModule.receive st (some (ip, tcp)) rnd).2.2 = none := by
  have hcons1 : consLookup { st with syns := i32wrap (st.syns + 1) } ip.srcIP = true := hest
  constructor <;> simp [DoSModule.receive, hsyn, hack, hcons1]

/-- C3: once a source IP is recorded as established (an ACK-and-not-SYN TCP
frame from it was processed), every later SYN-and-not-ACK frame from that
source — after any interleaved traffic, for any random draw, and however
large the SYN counter is relative to the threshold — gets verdict `true`
and emits no RST. -/
theorem dos_established_never_reset
    (st : DoSState) (ip0 : IPv4Header) (tcp0 : TCPHeader) (rnd0 : Nat)
    (hack0 : tcp0.ack = true) (hsyn0 : tcp0.syn = false)
    (rest : List (Option (IPv4Header × TCPHeader) × Nat))
    (ip : IPv4Header) (tcp : TCPHeader) (rnd : Nat)
    (hsyn : tcp.syn = true) (hack : tcp.ack = false) (hsrc : ip.srcIP = ip0.srcIP) :
    (DoSModule.receive
        (DoSModule.processFrames (DoSModule.receive st (some (ip0, tcp0)) rnd0).1 rest)
        (some (ip, tcp)) rnd).2.1 = true ∧
    (DoSModule.receive
        (DoSModule.processFrames (DoSModule.receive st (some (ip0, tcp0)) rnd0).1 rest)
        (some (ip, tcp)) rnd).2.2 = none := by
  have hest : consLookup
      (DoSModule.processFrames (DoSModule.receive st (some (ip0, tcp0)) rnd0).1 rest)
      ip.srcIP = true := by
    rw [hsrc]
    exact consLookup_processFrames_mono rest _ _ (consLookup_after_ack st ip0 tcp0 rnd0 hack0 hsyn0)
  exact receive_established_syn _ ip tcp rnd hest hsyn hack

/-- Witness for C3: an ACK-only frame from 10.0.0.1, then with the counter
far above the threshold a SYN from 10.0.0.1 is forwarded with no RST. -/
theorem dos_established_never_reset_witness :
    (DoSModule.receive
        (DoSModule.processFrames
          (DoSModule.receive ⟨[], 1000, 1⟩
            (some (⟨[10, 0, 0, 1], [10, 0, 0, 2]⟩,
              ⟨80, 80, 7, 9, false, true, false, 100⟩)) 0).1 [])
        (some (⟨[10, 0, 0, 1], [10, 0, 0, 2]⟩,
          ⟨80, 80, 7, 9, true, false, false, 100⟩)) 0).2.1 = true ∧
    (DoSModule.receive
        (DoSModule.processFrames
          (DoSModule.receive ⟨[], 1000, 1⟩
            (some (⟨[10, 0, 0, 1], [10, 0, 0, 2]⟩,
              ⟨80, 80, 7, 9, false, true, false, 100⟩)) 0).1 [])
        (some (⟨[10, 0, 0, 1], [10, 0, 0, 2]⟩,
          ⟨80, 80, 7, 9, true, false, false, 100⟩)) 0).2.2 = none :=
  dos_established_never_reset ⟨[], 1000, 1⟩ _ _ 0 rfl rfl [] _ _ 0 rfl rfl rfl

/-- C6: whenever the DoS module rejects an IPv4+TCP frame (verdict
`false`), the packet handed to the network layer for emission is the
original with IP source and destination swapped, `Seq` one more than the
original sequence number (modulo 2^32, as the field is a `uint32`), `Ack`
unchanged, the RST flag set, and the original window; every other
constructed TCP field is the Go zero value.  Serialization and socket
errors cannot propagate: `send` has no return value and every failure path
returns locally after logging. -/
theorem dos_reset_packet_shape (st : DoSState) (ip : IPv4Header) (tcp : TCPHeader) (rnd : Nat)
    (hrej : (DoSModule.receive st (some (ip, tcp)) rnd).2.1 = false) :
    (DoSModule.receive st (some (ip, tcp)) rnd).2.2 =
      some (⟨ip.dstIP, ip.srcIP⟩,
        { srcPort := tcp.srcPort
          dstPort := tcp.dstPort
          seq := (tcp.seq + 1) % 2 ^ 32
          ackNum := tcp.ackNum
          syn := false
          ack := false
          rst := true
          window := tcp.window }) := by
  simp only [DoSModule.receive] at hrej ⊢
  split at hrej
  · split at hrej
    · split at hrej
      · simp at hrej
      · simp_all [DoSModule.sendReset]
    · simp at hrej
  · split at hrej <;> simp at hrej

/-- Witness for C6: a SYN over the threshold from an unknown source with an
unlucky draw is rejected, and the theorem yields the concrete RST packet. -/
theorem dos_reset_packet_shape_witness :
    (DoSModule.receive ⟨[], 5, 1⟩
        (some (⟨[10, 0, 0, 1], [10, 0, 0, 2]⟩, ⟨4321, 80, 7, 9, true, false, false, 100⟩)) 0).2.2 =
      some (⟨[10, 0, 0, 2], [10, 0, 0, 1]⟩, ⟨4321, 80, 8, 9, false, false, true, 100⟩) := by
  have h := dos_reset_packet_shape ⟨[], 5, 1⟩ ⟨[10, 0, 0, 1], [10, 0, 0, 2]⟩
    ⟨4321, 80, 7, 9, true, false, false, 100⟩ 0 (by decide)
  rw [h]
  decide

/-! ## 802.11 module, deauthentication branch (module/wifimodule.go and the
revision in src/unnamed/part_009)

Variant 1 (module/wifimodule.go; the `interval` field is documented "in
milliseconds"):

    if cur.Sub(m.prevDeauthTime)*time.Millisecond < time.Duration(m.interval) {
        m.Hub.Publish("log", "notice", fmt.Sprintf(deauth, dot11.Address1))
    }
    m.prevDeauthTime = cur

Variant 2 (src/unnamed/part_009; the `interval` field is documented "in
nanoseconds"):

    if cur.Sub(m.prevDeauthTime)*time.Nanosecond < time.Duration(m.interval) {
        m.Hub.Publish("log", "notice", fmt.Sprintf(deauth, dot11.Address1))
    }
    m.prevDeauthTime = cur

`time.Duration` is an `int64` counting nanoseconds, `time.Millisecond` is
the constant 10^6 and `time.Nanosecond` the constant 1, and Go `int64`
multiplication wraps silently; times are embedded as `Int` nanosecond
counts and the product is wrapped explicitly.  Each function returns
whether the notice is published, and the new `prevDeauthTime`. -/

/-- Two's-complement wrap-around of Go's `int64`. -/
def i64wrap (x : Int) : Int := (x + 2 ^ 63) % 2 ^ 64 - 2 ^ 63

theorem i64wrap_eq_self (x : Int) (h1 : -2 ^ 63 ≤ x) (h2 : x < 2 ^ 63) :
    i64wrap x = x := by
  unfold i64wrap
  rw [Int.emod_eq_of_lt (by omega) (by omega)]
  omega

/-- `WiFiModule.deauth` of module/wifimodule.go: multiply the *elapsed*
duration by `time.Millisecond` and compare against the raw configured
value. -/
def WiFiModule.deauthV1 (interval prevDeauthTime cur : Int) : Bool × Int :=
  (decide (i64wrap ((cur - prevDeauthTime) * 1000000) < interval), cur)

/-- `WiFiModule.deauth` of src/unnamed/part_009: multiply the elapsed
duration by `time.Nanosecond` (i.e. 1) and compare against the configured
value, both in nanoseconds. -/
def WiFiModule.deauthV2 (interval prevDeauthTime cur : Int) : Bool × Int :=
  (decide (i64wrap ((cur - prevDeauthTime) * 1) < interval), cur)

/-- C7: the claim is that a disassociation/deauthentication frame draws the
notice exactly when the elapsed time since the previous such frame is below
the configured interval in its documented unit, and that `prevDeauthTime`
is always set to the current time.  Conjuncts: (1) both variants always
update `prevDeauthTime`; (2) the part_009 variant (nanosecond-documented
interval) satisfies the claim exactly for any in-range elapsed time; (3)
the module/wifimodule.go variant (millisecond-documented interval) does
not: with `interval = 1000` (i.e. 1000 ms) and an elapsed time of
500000000 ns = 500 ms, the claim requires a notice (500 < 1000), but the
code compares `500000000 * 10^6 < 1000` and publishes nothing. -/
theorem wifi_deauth_interval_claim :
    (∀ interval prev cur : Int,
      (WiFiModule.deauthV1 interval prev cur).2 = cur ∧
      (WiFiModule.deauthV2 interval prev cur).2 = cur) ∧
    (∀ interval prev cur : Int, -2 ^ 63 ≤ cur - prev → cur - prev < 2 ^ 63 →
      (WiFiModule.deauthV2 interval prev cur).1 = decide (cur - prev < interval)) ∧
    (((500000000 : Int) / 1000000 < 1000) ∧
      (WiFiModule.deauthV1 1000 0 500000000).1 = false) := by
  refine ⟨fun interval prev cur => ⟨rfl, rfl⟩, ?_, by decide, ?_⟩
  · intro interval prev cur h1 h2
    simp only [WiFiModule.deauthV2, mul_one, i64wrap_eq_self (cur - prev) h1 h2]
  · show decide (i64wrap ((500000000 - 0) * 1000000) < 1000) = false
    rw [show i64wrap ((500000000 - 0) * 1000000) = 500000000000000 from by decide]
    decide

/-- Witness for C7: the second conjunct applied at a concrete elapsed time
inside the interval. -/
theorem wifi_deauth_interval_claim_witness :
    (WiFiModule.deauthV2 1000000000 0 500000000).1 = decide ((500000000 : Int) - 0 < 1000000000) :=
  wifi_deauth_interval_claim.2.1 1000000000 0 500000000 (by decide) (by decide)

/-! ## ARP decoder (arp/arp.go)

    func (a *ARP) decode(data []byte) error {
        a.HAddress = LinkType(binary.BigEndian.Uint16(data[0:2]))
        if a.HAddress != LinkTypeEthernet { return errors.New(...) }
        a.PAddress = EtherType(binary.BigEndian.Uint16(data[2:4]))
        switch a.PAddress {
        case EtherTypeIPv4, EtherTypeIPv6, EtherTypeARP: break
        default: return errors.New(...)
        }
        a.HLength = data[4]
        a.PLength = data[5]
        a.Opcode = ARPOpcode(binary.BigEndian.Uint16(data[6:8]))
        switch a.Opcode {
        case ARPOpcodeRequest, ARPOpcodeReply: break
        default: return errors.New(...)
        }
        a.SHAddress = data[8 : 8+a.HLength]
        a.SPAddress = data[8+a.HLength : 8+a.HLength+a.PLength]
        a.THAddress = data[8+a.HLength+a.PLength : 8+2*a.HLength+a.PLength]
        a.TPAddress = data[8+2*a.HLength+a.PLength : 8+2*a.HLength+2*a.PLength]
        return nil
    }

There is no length validation.  `a.HLength` and `a.PLength` are `uint8`,
so in each of the four slice expressions the untyped constants convert to
`uint8` and the bound arithmetic wraps mod 256 (for `HLength = 150`,
`PLength = 0` the last two bounds evaluate to `308 mod 256 = 52`, giving
`data[158:52]`).  A Go slice `data[lo:hi]` panics when `lo > hi` or
`hi > cap` (the embedding assumes `cap = len`); the embedding computes
each wrapped bound explicitly and tests the slices in program order.  The
reads `data[0:2]`, `data[2:4]`, `data[4]`, `data[5]`, `data[6:8]` are
folded into one bounds test each, placed where the first read happens. -/

/-- A decoded ARP packet (arp/arp.go `ARP`); enumerated Go fields are
embedded as their numeric values. -/
structure ARP where
  hAddress : Nat
  pAddress : Nat
  hLength : Nat
  pLength : Nat
  opcode : Nat
  shAddress : List Nat
  spAddress : List Nat
  thAddress : List Nat
  tpAddress : List Nat
deriving Repr, DecidableEq

/-- Result of `ARP.decode`: success, a returned error, or a slice-bounds
panic. -/
inductive ARPResult where
  | ok (a : ARP)
  | err (msg : String)
  | panic
deriving Repr, DecidableEq

/-- `ARP.decode(data)` (and `DecodeARP`, which wraps it).  The four slice
bounds `(8 + HLength) % 256`, `(8 + HLength + PLength) % 256`,
`(8 + 2*HLength + PLength) % 256` and `(8 + 2*HLength + 2*PLength) % 256`
are the Go `uint8` expressions (every intermediate `uint8` operation wraps,
which equals reducing the whole sum mod 256). -/
def ARP.decode (data : List Nat) : ARPResult :=
  if data.length < 2 then .panic
  else if beU16 data 0 ≠ 1 then
    .err "Link layer protocols other than Ethernet are not supported"
  else if data.length < 4 then .panic
  else if ¬(beU16 data 2 = 0x0800 ∨ beU16 data 2 = 0x0806 ∨ beU16 data 2 = 0x86DD) then
    .err "Ethernet types other than IPv4, ARP and IPv6 are not supported"
  else if data.length < 6 then .panic
  else if data.length < 8 then .panic
  else if ¬(beU16 data 6 = 1 ∨ beU16 data 6 = 2) then
    .err "Opcode type should be 1 (REQUEST) or 2 (REPLY)"
  else if (8 + data.getD 4 0) % 256 < 8 ∨
      data.length < (8 + data.getD 4 0) % 256 then .panic
  else if (8 + data.getD 4 0 + data.getD 5 0) % 256 < (8 + data.getD 4 0) % 256 ∨
      data.length < (8 + data.getD 4 0 + data.getD 5 0) % 256 then .panic
  else if (8 + 2 * data.getD 4 0 + data.getD 5 0) % 256 <
        (8 + data.getD 4 0 + data.getD 5 0) % 256 ∨
      data.length < (8 + 2 * data.getD 4 0 + data.getD 5 0) % 256 then .panic
  else if (8 + 2 * data.getD 4 0 + 2 * data.getD 5 0) % 256 <
        (8 + 2 * data.getD 4 0 + data.getD 5 0) % 256 ∨
      data.length < (8 + 2 * data.getD 4 0 + 2 * data.getD 5 0) % 256 then .panic
  else .ok
    { hAddress := 1
      pAddress := beU16 data 2
      hLength := data.getD 4 0
      pLength := data.getD 5 0
      opcode := beU16 data 6
      shAddress := goSlice data 8 ((8 + data.getD 4 0) % 256)
      spAddress := goSlice data ((8 + data.getD 4 0) % 256)
        ((8 + data.getD 4 0 + data.getD 5 0) % 256)
      thAddress := goSlice data ((8 + data.getD 4 0 + data.getD 5 0) % 256)
        ((8 + 2 * data.getD 4 0 + data.getD 5 0) % 256)
      tpAddress := goSlice data ((8 + 2 * data.getD 4 0 + data.getD 5 0) % 256)
        ((8 + 2 * data.getD 4 0 + 2 * data.getD 5 0) % 256) }

/-- The ARP test vector of arp/arp_test.go `TestDecode`. -/
def arpTestPacket : List Nat :=
  [0x00, 0x01, 0x08, 0x00, 0x06, 0x04, 0x00, 0x01,
   0x08, 0x9e, 0x01, 0xda, 0x6d, 0xb0,
   0xc0, 0xa8, 0x00, 0x19,
   0xff, 0xff, 0xff, 0xff, 0xff, 0xff,
   0xc0, 0xa8, 0x00, 0x0d]

example : ARP.decode arpTestPacket = .ok
    { hAddress := 1, pAddress := 0x0800, hLength := 6, pLength := 4, opcode := 1,
      shAddress := [0x08, 0x9e, 0x01, 0xda, 0x6d, 0xb0],
      spAddress := [0xc0, 0xa8, 0x00, 0x19],
      thAddress := [0xff, 0xff, 0xff, 0xff, 0xff, 0xff],
      tpAddress := [0xc0, 0xa8, 0x00, 0x0d] } := by decide

/-- The condition under which the four slice expressions of `ARP.decode`
are all in bounds for hardware-address length `hl`, protocol-address
length `pl` and input length `len`: the wrapped `uint8` bounds form a
chain from the low index 8 up to at most `len`. -/
def arpSliceBoundsOk (hl pl len : Nat) : Prop :=
  8 ≤ (8 + hl) % 256 ∧
  (8 + hl) % 256 ≤ (8 + hl + pl) % 256 ∧
  (8 + hl + pl) % 256 ≤ (8 + 2 * hl + pl) % 256 ∧
  (8 + 2 * hl + pl) % 256 ≤ (8 + 2 * hl + 2 * pl) % 256 ∧
  (8 + 2 * hl + 2 * pl) % 256 ≤ len

instance (hl pl len : Nat) : Decidable (arpSliceBoundsOk hl pl len) := by
  unfold arpSliceBoundsOk
  infer_instance

/-- A 308-byte input that passes all three validity checks and satisfies
`len = 308 ≥ 8 + 2*(HLength + PLength) = 8 + 2*150 = 308`, yet panics: the
`uint8` bound `8 + 2*HLength + PLength` wraps to `308 mod 256 = 52`, so the
source evaluates `data[158:52]`. -/
def arpWrapPacket : List Nat :=
  [0x00, 0x01, 0x08, 0x00, 150, 0, 0x00, 0x01] ++ List.replicate 300 0

/-- C9 as frozen states an unconditional equivalence: all byte accesses are
in bounds iff `len(data) ≥ 8 + 2*(HLength + PLength)`.  It fails on inputs
that an early validity check rejects before the length fields are ever
read: `[0, 0]` is refused as a non-Ethernet hardware type with every
access in bounds, yet is far shorter than the bound.  (It also fails in
the other direction, on `arpWrapPacket` — see the amended theorem.) -/
theorem arp_decode_bounds_counterexample :
    ¬ ∀ data : List Nat, (ARP.decode data ≠ .panic ↔
        8 + 2 * (data.getD 4 0 + data.getD 5 0) ≤ data.length) := by
  intro h
  exact absurd ((h [0, 0]).mp (by decide)) (by decide)

set_option maxRecDepth 8192

/-- C9 amended: the ARP decoder performs no length validation, and its
slice bounds are `uint8` arithmetic wrapping mod 256.  (1) For inputs of
length ≥ 8 that pass the three validity checks (Ethernet hardware type,
supported protocol type, opcode Request or Reply), the byte accesses are
in bounds exactly when the wrapped slice bounds form a chain within the
input (`arpSliceBoundsOk`); (2) when `8 + 2*HLength + 2*PLength < 256` —
no wrap, in particular for every Ethernet/IPv4 geometry — that condition
is exactly the claim's bound `len(data) ≥ 8 + 2*(HLength + PLength)`;
(3) under the same no-wrap proviso, any input satisfying the claim's bound
is decoded without an out-of-bounds access, whether or not the checks
pass; (4) the empty slice causes an out-of-bounds access, and
`arpWrapPacket` shows the wrap: it panics although it satisfies the
claim's bound; (5) the only errors ever returned are the three
unsupported-value errors — there is no too-short FormatError. -/
theorem arp_decode_no_length_validation :
    (∀ data : List Nat, 8 ≤ data.length → beU16 data 0 = 1 →
      (beU16 data 2 = 0x0800 ∨ beU16 data 2 = 0x0806 ∨ beU16 data 2 = 0x86DD) →
      (beU16 data 6 = 1 ∨ beU16 data 6 = 2) →
      (ARP.decode data ≠ .panic ↔
        arpSliceBoundsOk (data.getD 4 0) (data.getD 5 0) data.length)) ∧
    (∀ hl pl len : Nat, 8 + 2 * hl + 2 * pl < 256 →
      (arpSliceBoundsOk hl pl len ↔ 8 + 2 * (hl + pl) ≤ len)) ∧
    (∀ data : List Nat, 8 + 2 * data.getD 4 0 + 2 * data.getD 5 0 < 256 →
      8 + 2 * (data.getD 4 0 + data.getD 5 0) ≤ data.length →
      ARP.decode data ≠ .panic) ∧
    (ARP.decode [] = .panic ∧
      ARP.decode arpWrapPacket = .panic ∧
      8 + 2 * (arpWrapPacket.getD 4 0 + arpWrapPacket.getD 5 0) ≤ arpWrapPacket.length) ∧
    (∀ (data : List Nat) (msg : String), ARP.decode data = .err msg →
      msg = "Link layer protocols other than Ethernet are not supported" ∨
      msg = "Ethernet types other than IPv4, ARP and IPv6 are not supported" ∨
      msg = "Opcode type should be 1 (REQUEST) or 2 (REPLY)") := by
  refine ⟨?_, ?_, ?_, ⟨by decide, by decide, by decide⟩, ?_⟩
  · intro data hlen h0 h2 h6
    unfold ARP.decode
    rw [if_neg (by omega), if_neg (by simp [h0]), if_neg (by omega), if_neg (by simp [h2]),
      if_neg (by omega), if_neg (by omega), if_neg (by simp [h6])]
    unfold arpSliceBoundsOk
    split_ifs with hc1 hc2 hc3 hc4
    · simp only [ne_eq, not_true_eq_false, false_iff]; omega
    · simp only [ne_eq, not_true_eq_false, false_iff]; omega
    · simp only [ne_eq, not_true_eq_false, false_iff]; omega
    · simp only [ne_eq, not_true_eq_false, false_iff]; omega
    · constructor
      · intro _
        omega
      · intro _
        simp
  · intro hl pl len hsmall
    unfold arpSliceBoundsOk
    omega
  · intro data hsmall hlen
    unfold ARP.decode
    rw [if_neg (by omega)]
    by_cases hb0 : beU16 data 0 = 1
    case neg => rw [if_pos (by simp [hb0])]; simp
    rw [if_neg (by simp [hb0]), if_neg (by omega)]
    by_cases hb2 : beU16 data 2 = 0x0800 ∨ beU16 data 2 = 0x0806 ∨ beU16 data 2 = 0x86DD
    case neg => rw [if_pos (by simp [hb2])]; simp
    rw [if_neg (by simp [hb2]), if_neg (by omega), if_neg (by omega)]
    by_cases hb6 : beU16 data 6 = 1 ∨ beU16 data 6 = 2
    case neg => rw [if_pos (by simp [hb6])]; simp
    rw [if_neg (by simp [hb6]), if_neg (by omega), if_neg (by omega), if_neg (by omega),
      if_neg (by omega)]
    simp
  · intro data msg h
    unfold ARP.decode at h
    by_cases hl2 : data.length < 2
    case pos => rw [if_pos hl2] at h; exact absurd h (by simp)
    rw [if_neg hl2] at h
    by_cases hb0 : beU16 data 0 ≠ 1
    case pos =>
      rw [if_pos hb0] at h
      exact Or.inl (ARPResult.err.inj h).symm
    rw [if_neg hb0] at h
    by_cases hl4 : data.length < 4
    case pos => rw [if_pos hl4] at h; exact absurd h (by simp)
    rw [if_neg hl4] at h
    by_cases hb2 : ¬(beU16 data 2 = 0x0800 ∨ beU16 data 2 = 0x0806 ∨ beU16 data 2 = 0x86DD)
    case pos =>
      rw [if_pos hb2] at h
      exact Or.inr (Or.inl (ARPResult.err.inj h).symm)
    rw [if_neg hb2] at h
    by_cases hl6 : data.length < 6
    case pos => rw [if_pos hl6] at h; exact absurd h (by simp)
    rw [if_neg hl6] at h
    by_cases hl8 : data.length < 8
    case pos => rw [if_pos hl8] at h; exact absurd h (by simp)
    rw [if_neg hl8] at h
    by_cases hb6 : ¬(beU16 data 6 = 1 ∨ beU16 data 6 = 2)
    case pos =>
      rw [if_pos hb6] at h
      exact Or.inr (Or.inr (ARPResult.err.inj h).symm)
    rw [if_neg hb6] at h
    by_cases hc1 : (8 + data.getD 4 0) % 256 < 8 ∨ data.length < (8 + data.getD 4 0) % 256
    case pos => rw [if_pos hc1] at h; exact absurd h (by simp)
    rw [if_neg hc1] at h
    by_cases hc2 : (8 + data.getD 4 0 + data.getD 5 0) % 256 < (8 + data.getD 4 0) % 256 ∨
        data.length < (8 + data.getD 4 0 + data.getD 5 0) % 256
    case pos => rw [if_pos hc2] at h; exact absurd h (by simp)
    rw [if_neg hc2] at h
    by_cases hc3 : (8 + 2 * data.getD 4 0 + data.getD 5 0) % 256 <
          (8 + data.getD 4 0 + data.getD 5 0) % 256 ∨
        data.length < (8 + 2 * data.getD 4 0 + data.getD 5 0) % 256
    case pos => rw [if_pos hc3] at h; exact absurd h (by simp)
    rw [if_neg hc3] at h
    by_cases hc4 : (8 + 2 * data.getD 4 0 + 2 * data.getD 5 0) % 256 <
          (8 + 2 * data.getD 4 0 + data.getD 5 0) % 256 ∨
        data.length < (8 + 2 * data.getD 4 0 + 2 * data.getD 5 0) % 256
    case pos => rw [if_pos hc4] at h; exact absurd h (by simp)
    rw [if_neg hc4] at h
    exact absurd h (by simp)

/-- Witness for C9's amended theorem: the test vector of arp_test.go
(`HLength = 6`, `PLength = 4`, 28 bytes, no wrap) discharges each
hypothesis: it passes the checks and decodes with every access in bounds,
its geometry makes the wrapped-bounds chain equal the claim's bound, and
the error conjunct is instantiated at the non-Ethernet input `[0, 0]`. -/
theorem arp_decode_no_length_validation_witness :
    ARP.decode arpTestPacket ≠ .panic ∧
    (arpSliceBoundsOk 6 4 28 ↔ 8 + 2 * (6 + 4) ≤ 28) ∧
    ARP.decode [0, 1, 8, 0, 0, 0, 0, 1] ≠ .panic ∧
    ("Link layer protocols other than Ethernet are not supported" =
        "Link layer protocols other than Ethernet are not supported" ∨
      "Link layer protocols other than Ethernet are not supported" =
        "Ethernet types other than IPv4, ARP and IPv6 are not supported" ∨
      "Link layer protocols other than Ethernet are not supported" =
        "Opcode type should be 1 (REQUEST) or 2 (REPLY)") :=
  ⟨(arp_decode_no_length_validation.1 arpTestPacket (by decide) (by decide)
      (by decide) (by decide)).mpr (by decide),
   arp_decode_no_length_validation.2.1 6 4 28 (by decide),
   arp_decode_no_length_validation.2.2.1 [0, 1, 8, 0, 0, 0, 0, 1] (by decide) (by decide),
   arp_decode_no_length_validation.2.2.2.2 [0, 0]
     "Link layer protocols other than Ethernet are not supported" (by decide)⟩

/-! ## ARP predicates and the ARP module (arp/arp.go, module/arpmodule.go) -/

/-- The Ethernet broadcast address FF:FF:FF:FF:FF:FF. -/
def broadcastAddress : List Nat := [0xff, 0xff, 0xff, 0xff, 0xff, 0xff]

/-- `IsUnicastRequest`. -/
def ARP.IsUnicastRequest (a : ARP) : Bool := decide (a.thAddress ≠ broadcastAddress)

/-- `IsGratuitous`. -/
def ARP.IsGratuitous (a : ARP) : Bool :=
  decide (a.spAddress = a.tpAddress ∧ a.thAddress = broadcastAddress)

/-- `IsBindingEthernet`. -/
def ARP.IsBindingEthernet (a : ARP) : Bool := decide (a.shAddress = broadcastAddress)

/-- `IsBroadcastReply`. -/
def ARP.IsBroadcastReply (a : ARP) : Bool := decide (a.tpAddress = broadcastAddress)

/-- The messages the ARP module can publish on the `log` topic.  Each
constructor embeds one `fmt.Sprintf` format string together with the
interpolated values. -/
inductive ARPMsg where
  | gratuitous (sp : List Nat) (opcode : Nat)
  | unicastRequest (sp tp : List Nat)
  | bindEthernet (sp : List Nat)
  | broadcastReply (sp tp : List Nat)
  | invalidBinding (sp sha : List Nat)
  | spuriousReply (sp tp : List Nat)
deriving Repr, DecidableEq

/-- The ARP module state: the map of valid IP-to-MAC allocations.  The Go
map is keyed by strings; the embedding keys it by the sender protocol
address bytes used at lookup time, and takes the configured MAC strings as
already parsed byte sequences (`net.ParseMAC` is a collaborator). -/
structure ARPModule where
  validBindings : List (List Nat × List (List Nat))
deriving Repr, DecidableEq

/-- The `arp-bindings` option of the configuration. -/
structure ARPConfig where
  arpBindings : List (List Nat × List (List Nat))
deriving Repr, DecidableEq

/-- `ARPModule.Init` is declared on a VALUE receiver:

    func (m ARPModule) Init(config *config.Configuration) error {
        m.validBindings = make(map[string][][]byte)
        for ip, macs := range config.ARPBindings { ... append ... }
        return nil
    }

so the body populates a copy of the caller's module and the copy is
discarded when the method returns.  `initGo` returns the pair (caller's
module after the call, the copy as the method body left it). -/
def ARPModule.initGo (m : ARPModule) (cfg : ARPConfig) : ARPModule × ARPModule :=
  (m, { validBindings := cfg.arpBindings })

/-- `ARPModule.isValidBinding`. -/
def ARPModule.isValidBinding (m : ARPModule) (a : ARP) : Bool :=
  let macs := (((m.validBindings.find? fun p => p.1 = a.spAddress).map fun p => p.2).getD [])
  if macs.length > 0 then macs.any fun mac => decide (mac = a.shAddress) else false

/-- `ARPModule.analyse` (module/arpmodule.go): at most one log event is
assembled and published. -/
def ARPModule.analyse (m : ARPModule) (a : ARP) : Option (String × ARPMsg) :=
  if a.opcode = 1 then
    if a.IsGratuitous then some ("notice", .gratuitous a.spAddress a.opcode)
    else if a.IsUnicastRequest then some ("notice", .unicastRequest a.spAddress a.tpAddress)
    else none
  else if a.opcode = 2 then
    if a.IsBindingEthernet then some ("error", .bindEthernet a.spAddress)
    else if a.IsBroadcastReply then some ("notice", .broadcastReply a.spAddress a.tpAddress)
    else if a.IsGratuitous then some ("notice", .gratuitous a.spAddress a.opcode)
    else if ¬ m.isValidBinding a then some ("notice", .invalidBinding a.spAddress a.shAddress)
    else none
  else none

/-- C8: because `Init` is on a value receiver, the caller's module keeps its
nil `validBindings` whatever the configuration says.  Conjuncts: (1) after
initialisation the caller-visible module rejects every binding; (2) the
discarded copy did receive the configured bindings (so the work is done and
thrown away); (3) every reply that reaches the binding check — opcode
Reply, not binding-to-broadcast, not a broadcast reply, not gratuitous —
is logged as an invalid binding, for every configuration. -/
theorem arp_init_value_receiver (cfg : ARPConfig) (a : ARP) :
    ((ARPModule.initGo ⟨[]⟩ cfg).1.isValidBinding a = false) ∧
    ((ARPModule.initGo ⟨[]⟩ cfg).2.validBindings = cfg.arpBindings) ∧
    (a.opcode = 2 → a.IsBindingEthernet = false → a.IsBroadcastReply = false →
      a.IsGratuitous = false →
      (ARPModule.initGo ⟨[]⟩ cfg).1.analyse a =
        some ("notice", .invalidBinding a.spAddress a.shAddress)) := by
  refine ⟨rfl, rfl, fun hop hbe hbr hg => ?_⟩
  have hvalid : (ARPModule.initGo ⟨[]⟩ cfg).1.isValidBinding a = false := rfl
  simp [ARPModule.analyse, hop, hbe, hbr, hg, hvalid]

/-- Witness for C8: a reply whose IP-to-MAC pair is listed in the
configuration is still logged as an invalid binding. -/
theorem arp_init_value_receiver_witness :
    (ARPModule.initGo ⟨[]⟩ ⟨[([192, 168, 0, 5], [[1, 2, 3, 4, 5, 6]])]⟩).1.analyse
      { hAddress := 1, pAddress := 0x0800, hLength := 6, pLength := 4, opcode := 2,
        shAddress := [1, 2, 3, 4, 5, 6], spAddress := [192, 168, 0, 5],
        thAddress := [1, 1, 1, 1, 1, 1], tpAddress := [192, 168, 0, 13] } =
      some ("notice", .invalidBinding [192, 168, 0, 5] [1, 2, 3, 4, 5, 6]) :=
  (arp_init_value_receiver ⟨[([192, 168, 0, 5], [[1, 2, 3, 4, 5, 6]])]⟩
    { hAddress := 1, pAddress := 0x0800, hLength := 6, pLength := 4, opcode := 2,
      shAddress := [1, 2, 3, 4, 5, 6], spAddress := [192, 168, 0, 5],
      thAddress := [1, 1, 1, 1, 1, 1], tpAddress := [192, 168, 0, 13] }).2.2
    rfl (by decide) (by decide) (by decide)

/-! ## Pending-request bookkeeping of the ARP module (spec §4.D)

src/module/arpmodule.go is an earlier revision without the
`pending_requests` list; the revision carrying it is not among the source
files, so that part is modelled from the spec. -/

/-- A pending request matches a reply when its (SPAddress, TPAddress)
equal the reply's (TPAddress, SPAddress). -/
def reqMatches (req reply : ARP) : Bool :=
  decide (req.spAddress = reply.tpAddress ∧ req.tpAddress = reply.spAddress)

/-- Remove the first entry matching the reply; leave the list unchanged
when no entry matches (stable first-match removal, spec §4.D). -/
def removeFirstMatch : List ARP → ARP → List ARP
  | [], _ => []
  | r :: rs, a => if reqMatches r a then rs else r :: removeFirstMatch rs a

/-- Whether some pending request matches the reply. -/
def hasMatch (pending : List ARP) (a : ARP) : Bool :=
  pending.any fun r => reqMatches r a

/-- Modelled from the spec: the pending-request handling of the final
`ARPModule.analyse` (spec §4.D), which is absent from
src/module/arpmodule.go.  Requests: a non-gratuitous request is appended
to `pending_requests` (gratuitous and unicast requests also log, as in the
source revision).  Replies: a non-gratuitous reply with no matching request
logs a spurious-reply notice; a matching request is removed (first match,
stable); the reply-classification logging of the source revision follows.
Returns the new pending list and the emitted log events. -/
def ARPModule.analysePending (m : ARPModule) (pending : List ARP) (a : ARP) :
    List ARP × List (String × ARPMsg) :=
  if a.opcode = 1 then
    ((if ¬ a.IsGratuitous then pending ++ [a] else pending),
     if a.IsGratuitous then [("notice", .gratuitous a.spAddress a.opcode)]
     else if a.IsUnicastRequest then [("notice", .unicastRequest a.spAddress a.tpAddress)]
     else [])
  else if a.opcode = 2 then
    (removeFirstMatch pending a,
     (if ¬ a.IsGratuitous ∧ ¬ hasMatch pending a then
        [("notice", .spuriousReply a.spAddress a.tpAddress)]
      else []) ++
     (if a.IsBindingEthernet then [("error", .bindEthernet a.spAddress)]
      else if a.IsBroadcastReply then [("notice", .broadcastReply a.spAddress a.tpAddress)]
      else if a.IsGratuitous then [("notice", .gratuitous a.spAddress a.opcode)]
      else if ¬ m.isValidBinding a then [("notice", .invalidBinding a.spAddress a.shAddress)]
      else []))
  else (pending, [])

theorem removeFirstMatch_no_match (pending : List ARP) (a : ARP)
    (h : ∀ r ∈ pending, reqMatches r a = false) :
    removeFirstMatch pending a = pending := by
  induction pending with
  | nil => rfl
  | cons r rs ih =>
    simp only [removeFirstMatch, h r (List.mem_cons_self r rs), if_false, Bool.false_eq_true]
    rw [ih fun x hx => h x (List.mem_cons_of_mem r hx)]

theorem removeFirstMatch_first (pending : List ARP) (a : ARP) (i : Nat)
    (h : i < pending.length)
    (hmatch : reqMatches (pending.get ⟨i, h⟩) a = true)
    (hfirst : ∀ j : Nat, ∀ hj : j < i, reqMatches (pending.get ⟨j, Nat.lt_trans hj h⟩) a = false) :
    removeFirstMatch pending a = pending.take i ++ pending.drop (i + 1) := by
  induction pending generalizing i with
  | nil => exact absurd h (Nat.not_lt_zero i)
  | cons r rs ih =>
    cases i with
    | zero =>
      simp only [List.get] at hmatch
      simp [removeFirstMatch, hmatch]
    | succ k =>
      have hr : reqMatches r a = false := hfirst 0 (Nat.succ_pos k)
      simp only [removeFirstMatch, hr, Bool.false_eq_true, if_false, List.take_succ_cons,
        List.drop_succ_cons, List.cons_append, List.cons.injEq, true_and]
      exact ih k (Nat.lt_of_succ_lt_succ h) hmatch
        fun j hj => hfirst (j + 1) (Nat.succ_lt_succ hj)

/-- C4: the pending-request bookkeeping (spec-modelled, see
`ARPModule.analysePending`).  Conjuncts, for every module state, pending
list and packet: (1) a processed non-gratuitous request is appended to the
list; (2) a non-gratuitous reply matched by no pending request emits the
spurious-reply notice and leaves the list unchanged; (3) on a reply, if
position `i` holds the first matching request, exactly that entry is
removed. -/
theorem arp_pending_requests (m : ARPModule) (pending : List ARP) (a : ARP) :
    (a.opcode = 1 → a.IsGratuitous = false →
      (m.analysePending pending a).1 = pending ++ [a]) ∧
    (a.opcode = 2 → a.IsGratuitous = false →
      (∀ r ∈ pending, reqMatches r a = false) →
      ("notice", ARPMsg.spuriousReply a.spAddress a.tpAddress) ∈ (m.analysePending pending a).2 ∧
      (m.analysePending pending a).1 = pending) ∧
    (a.opcode = 2 → ∀ i : Nat, ∀ h : i < pending.length,
      reqMatches (pending.get ⟨i, h⟩) a = true →
      (∀ j : Nat, ∀ hj : j < i, reqMatches (pending.get ⟨j, Nat.lt_trans hj h⟩) a = false) →
      (m.analysePending pending a).1 = pending.take i ++ pending.drop (i + 1)) := by
  refine ⟨fun hop hg => ?_, fun hop hg hnone => ?_, fun hop i h hmatch hfirst => ?_⟩
  · simp [ARPModule.analysePending, hop, hg]
  · have hop1 : a.opcode ≠ 1 := by omega
    have hm : hasMatch pending a = false := by
      simp only [hasMatch, List.any_eq_false]
      intro r hr
      simp [hnone r hr]
    constructor
    · simp [ARPModule.analysePending, hop1, hop, hg, hm]
    · simp only [ARPModule.analysePending, hop1, if_false, hop, if_true, if_pos]
      exact removeFirstMatch_no_match pending a hnone
  · have hop1 : a.opcode ≠ 1 := by omega
    simp only [ARPModule.analysePending, hop1, if_false, hop, if_true, if_pos]
    exact removeFirstMatch_first pending a i h hmatch hfirst

/-- Witness for C4: a concrete request is appended; a concrete unmatched
reply draws the spurious-reply notice; a concrete matched reply has the
first matching entry removed. -/
theorem arp_pending_requests_witness :
    ((ARPModule.mk []).analysePending []
      { hAddress := 1, pAddress := 0x0800, hLength := 6, pLength := 4, opcode := 1,
        shAddress := [1, 2, 3, 4, 5, 6], spAddress := [10, 0, 0, 1],
        thAddress := broadcastAddress, tpAddress := [10, 0, 0, 2] }).1 =
      [{ hAddress := 1, pAddress := 0x0800, hLength := 6, pLength := 4, opcode := 1,
         shAddress := [1, 2, 3, 4, 5, 6], spAddress := [10, 0, 0, 1],
         thAddress := broadcastAddress, tpAddress := [10, 0, 0, 2] }] ∧
    ("notice", ARPMsg.spuriousReply [10, 0, 0, 2] [10, 0, 0, 1]) ∈
      ((ARPModule.mk []).analysePending []
        { hAddress := 1, pAddress := 0x0800, hLength := 6, pLength := 4, opcode := 2,
          shAddress := [1, 2, 3, 4, 5, 6], spAddress := [10, 0, 0, 2],
          thAddress := [1, 2, 3, 4, 5, 6], tpAddress := [10, 0, 0, 1] }).2 ∧
    ((ARPModule.mk []).analysePending
      [{ hAddress := 1, pAddress := 0x0800, hLength := 6, pLength := 4, opcode := 1,
         shAddress := [1, 2, 3, 4, 5, 6], spAddress := [10, 0, 0, 1],
         thAddress := broadcastAddress, tpAddress := [10, 0, 0, 2] }]
      { hAddress := 1, pAddress := 0x0800, hLength := 6, pLength := 4, opcode := 2,
        shAddress := [1, 2, 3, 4, 5, 6], spAddress := [10, 0, 0, 2],
        thAddress := [1, 2, 3, 4, 5, 6], tpAddress := [10, 0, 0, 1] }).1 = [] := by
  refine ⟨(arp_pending_requests _ _ _).1 rfl (by decide), ?_, ?_⟩
  · exact ((arp_pending_requests _ _ _).2.1 rfl (by decide) (by simp)).1
  · have h := (arp_pending_requests (ARPModule.mk [])
      [{ hAddress := 1, pAddress := 0x0800, hLength := 6, pLength := 4, opcode := 1,
         shAddress := [1, 2, 3, 4, 5, 6], spAddress := [10, 0, 0, 1],
         thAddress := broadcastAddress, tpAddress := [10, 0, 0, 2] }]
      { hAddress := 1, pAddress := 0x0800, hLength := 6, pLength := 4, opcode := 2,
        shAddress := [1, 2, 3, 4, 5, 6], spAddress := [10, 0, 0, 2],
        thAddress := [1, 2, 3, 4, 5, 6], tpAddress := [10, 0, 0, 1] }).2.2
      rfl 0 (by decide) (by decide) (fun j hj => absurd hj (Nat.not_lt_zero j))
    simpa using h
